import Mathlib

/- Verification development for the PortVisibility repository (app.py).

   Shallow embedding conventions:
   * Python strings are `List Char`; Python floats are `ℚ` (every numeric
     literal the program compares against -- 0, 0.5, 1, 1.5, 2, 3, 4, 6 --
     is exactly representable, so rationals are a faithful model of the
     score arithmetic).
   * Every external call (HTTP fetch with redirects, the regular-expression
     and query-string helpers applied to the final URL, Python's float()
     parser, Nominatim geocoding, and the four osmnx queries) is a field of
     an explicit environment record.  `none` models a raised exception or
     an empty answer, exactly where the Python code catches one.
   * The Streamlit UI (page config, tabs, progress bar, CSV download) is
     presentation plumbing outside the embedded core, per the spec. -/

set_option maxHeartbeats 1000000

namespace PortVisibility

/-! ## String utilities mirroring the Python primitives used by app.py -/

/-- Whitespace recognised by Python's str.strip(). -/
def isPySpace (c : Char) : Bool :=
  c == ' ' || c == '\t' || c == '\n' || c == '\r' || c == '\x0b' || c == '\x0c'

/-- Python str.strip() (app.py line 30): drop leading and trailing whitespace. -/
def pyStrip (s : List Char) : List Char :=
  (((s.dropWhile isPySpace).reverse).dropWhile isPySpace).reverse

/-- Boolean test that pat is a prefix of the second list. -/
def isPrefixList : List Char → List Char → Bool
  | [], _ => true
  | _ :: _, [] => false
  | x :: xs, y :: ys => x == y && isPrefixList xs ys

/-- Python's substring operator `pat in s`: pat occurs contiguously in s. -/
def occursIn (pat : List Char) : List Char → Bool
  | [] => isPrefixList pat []
  | c :: rest => isPrefixList pat (c :: rest) || occursIn pat rest

/-- Python's `c in s` for a single character c. -/
def charIn (c : Char) (s : List Char) : Bool :=
  occursIn [c] s

/-- Python str.split(sep) with a single-character separator: splits on every
occurrence of sep, keeping empty fields, and returns at least one field. -/
def splitOn (sep : Char) : List Char → List (List Char)
  | [] => [[]]
  | c :: rest =>
    if c == sep then [] :: splitOn sep rest
    else
      match splitOn sep rest with
      | [] => [[c]]
      | t :: ts => (c :: t) :: ts

/-! ## Tokens appearing in app.py -/

/-- The substring "http" tested at app.py lines 34 and 41. -/
def httpTok : List Char := "http".toList

/-- The address-indicating script markers of app.py line 34
(the characters of the string 都道府県市区町村). -/
def addressMarkerChars : List Char := "都道府県市区町村".toList

/-- True when any address marker character occurs in s (app.py line 34). -/
def hasAddressMarker (s : List Char) : Bool :=
  addressMarkerChars.any (fun c => charIn c s)

def hwMotorway : List Char := "motorway".toList
def hwTrunk : List Char := "trunk".toList
def hwPrimary : List Char := "primary".toList
def hwSecondary : List Char := "secondary".toList
def hwTertiary : List Char := "tertiary".toList
def hwResidential : List Char := "residential".toList
def hwUnclassified : List Char := "unclassified".toList
def hwLivingStreet : List Char := "living_street".toList
def hwPedestrian : List Char := "pedestrian".toList
def hwFootway : List Char := "footway".toList
def hwPath : List Char := "path".toList
def hwSteps : List Char := "steps".toList
def hwCycleway : List Char := "cycleway".toList
def hwService : List Char := "service".toList

/-- major_roads list of app.py line 103. -/
def major_roads : List (List Char) := [hwMotorway, hwTrunk, hwPrimary, hwSecondary]

/-- medium_roads list of app.py line 104. -/
def medium_roads : List (List Char) := [hwTertiary]

/-- living_roads list of app.py line 105. -/
def living_roads : List (List Char) := [hwResidential, hwUnclassified, hwLivingStreet]

/-- non_vehicle list of app.py line 106. -/
def non_vehicle : List (List Char) := [hwPedestrian, hwFootway, hwPath, hwSteps, hwCycleway]

/-! ## The location resolver (app.py lines 23-71) -/

/-- External behaviour consumed by extract_coords_from_input.  Each field
stands for one opaque library call; `none` models a raised exception or a
missing match, exactly where the Python code observes one. -/
structure NetEnv where
  /-- Python float(token): some value on successful parse, none when it
  raises ValueError. -/
  parseFloat : List Char → Option ℚ
  /-- requests.get(s, allow_redirects=True, timeout=5).url (line 43):
  some final_url, or none when the request raises. -/
  fetchFinalURL : List Char → Option (List Char)
  /-- re.search of the @lat,lon path segment on the final URL (line 46):
  the two captured groups. -/
  reSearchAt : List Char → Option (List Char × List Char)
  /-- parse_qs(urlparse(u).query) lookup of parameter q (lines 49-51):
  the first value of q when present. -/
  qsQ : List Char → Option (List Char)
  /-- re.search of the !3d-latitude parameter on the final URL (line 55). -/
  re3d : List Char → Option (List Char)
  /-- re.search of the !4d-longitude parameter on the final URL (line 56). -/
  re4d : List Char → Option (List Char)
  /-- Nominatim(...).geocode(s) (lines 64-67): some (latitude, longitude) of
  the best match, none when there is no match or the call raises. -/
  geocode : List Char → Option (ℚ × ℚ)

/-- Outcome of the URL branch of the resolver (the try block at
app.py lines 42-60): a returned coordinate pair, a caught exception
(which makes the whole resolver return None), or falling off the end of
the try block with no pattern matched. -/
inductive UrlOutcome where
  | coords (p : ℚ × ℚ)
  | raised
  | fellThrough
deriving DecidableEq

/-- The URL branch body (app.py lines 42-58): fetch the final URL after
redirects, then try the three extraction patterns in order: the @lat,lon
path segment; the q query parameter split on commas (taking the first two
fields when there are at least two); the separate !3d/!4d parameters.
A failing float conversion inside a matched pattern is a raised
ValueError, caught at line 59.  When no pattern produces a return the
control falls off the end of the try block. -/
def urlPattern (env : NetEnv) (s : List Char) : UrlOutcome :=
  match env.fetchFinalURL s with
  | none => UrlOutcome.raised
  | some finalUrl =>
    match env.reSearchAt finalUrl with
    | some (g1, g2) =>
      match env.parseFloat g1, env.parseFloat g2 with
      | some a, some b => UrlOutcome.coords (a, b)
      | _, _ => UrlOutcome.raised
    | none =>
      let after34 : UrlOutcome :=
        match env.re3d finalUrl, env.re4d finalUrl with
        | some g1, some g2 =>
          match env.parseFloat g1, env.parseFloat g2 with
          | some a, some b => UrlOutcome.coords (a, b)
          | _, _ => UrlOutcome.raised
        | _, _ => UrlOutcome.fellThrough
      match env.qsQ finalUrl with
      | some qv =>
        match splitOn ',' qv with
        | c0 :: c1 :: _ =>
          match env.parseFloat c0, env.parseFloat c1 with
          | some a, some b => UrlOutcome.coords (a, b)
          | _, _ => UrlOutcome.raised
        | _ => after34
      | none => after34

/-- extract_coords_from_input (app.py lines 23-71).  The input is stripped,
then three strategies run in order: literal "lat,lon" parsing (guarded by:
contains a comma, does not contain "http", contains no address marker;
split on every comma, float the first two fields, any exception is caught
and falls through); the URL branch when "http" occurs (an exception there
returns None, a clean no-match falls through); Nominatim geocoding. -/
def extract_coords_from_input (env : NetEnv) (raw : List Char) : Option (ℚ × ℚ) :=
  let s := pyStrip raw
  let patternA : Option (ℚ × ℚ) :=
    if charIn ',' s && !occursIn httpTok s && !hasAddressMarker s then
      match splitOn ',' s with
      | p0 :: p1 :: _ =>
        match env.parseFloat p0, env.parseFloat p1 with
        | some x, some y => some (x, y)
        | _, _ => none
      | _ => none
    else none
  match patternA with
  | some p => some p
  | none =>
    if occursIn httpTok s then
      match urlPattern env s with
      | UrlOutcome.coords p => some p
      | UrlOutcome.raised => none
      | UrlOutcome.fellThrough => env.geocode s
    else env.geocode s

/-! ## Rank derivation (app.py lines 157-175) -/

inductive Rank where
  | S | A | B | C | D
deriving DecidableEq

inductive Color where
  | green | blue | orange | red
deriving DecidableEq

/-- The rank/colour table of app.py lines 158-172, evaluated top-down with
first match winning. -/
def rankOf (score : ℚ) : Rank × Color :=
  if score ≥ 4 then (Rank.S, Color.green)
  else if score ≥ 3 then (Rank.A, Color.blue)
  else if score ≥ 3/2 then (Rank.B, Color.orange)
  else if score > 0 then (Rank.C, Color.orange)
  else (Rank.D, Color.red)

/-- Numeric height of a rank, for stating monotonicity (D lowest, S highest). -/
def rankVal : Rank → ℕ
  | Rank.D => 0
  | Rank.C => 1
  | Rank.B => 2
  | Rank.A => 3
  | Rank.S => 4

/-! ## The scoring engine (app.py lines 76-175) -/

/-- One entry of the details trace.  Each constructor stands for exactly one
details.append(...) site of assess_visibility_rank_v2, with the road tag
interpolated into the f-string carried as payload. -/
inductive Note where
  /-- line 88. -/
  | stationNear
  /-- line 90. -/
  | stationFar
  /-- line 123. -/
  | sidewalkRescued (hw : List Char)
  /-- line 129. -/
  | majorRoad (hw : List Char)
  /-- line 132. -/
  | mediumRoad (hw : List Char)
  /-- line 135. -/
  | livingRoad (hw : List Char)
  /-- line 137. -/
  | serviceRoad
  /-- line 139. -/
  | nonVehicle (hw : List Char)
  /-- line 141. -/
  | alley
  /-- line 144. -/
  | roadError
  /-- line 153. -/
  | corner
deriving DecidableEq

/-- External osmnx behaviour consumed by assess_visibility_rank_v2 at a
query point.  `none` models a raised exception in the corresponding try
block. -/
structure GeoEnv where
  /-- features_from_point with the station tags, dist=240 (line 85):
  some true when the result is non-empty, some false when empty, none when
  the call raises. -/
  stationsFound : ℚ → ℚ → Option Bool
  /-- graph_from_point dist=100 network_type=all, nearest edge, highway tag
  after the list normalisation of line 101 (lines 96-101); none when any of
  it raises. -/
  roadQuery : ℚ → ℚ → Option (List Char)
  /-- graph_from_point dist=50 network_type=drive, nearest edge, highway tag
  after list normalisation (lines 114-118); none when any of it raises. -/
  driveQuery : ℚ → ℚ → Option (List Char)
  /-- graph_from_point dist=50 network_type=drive simplify=True, nearest
  node, degree of that node (lines 148-150); none when any of it raises. -/
  nodeDegree : ℚ → ℚ → Option ℕ

/-- Check 1 (app.py lines 82-92): stations within 240 m add 3.0 points with
a note, absence adds a zero note, and a raised query is swallowed by
except: pass, appending nothing. -/
def transitStep (g : GeoEnv) (lat lon : ℚ) (st : ℚ × List Note) : ℚ × List Note :=
  match g.stationsFound lat lon with
  | none => st
  | some true => (st.1 + 3, st.2 ++ [Note.stationNear])
  | some false => (st.1, st.2 ++ [Note.stationFar])

/-- The sidewalk rescue (app.py lines 108-125): only attempted when the
original tag is non-vehicle; returns the drive-network tag when that
rescue query succeeds and yields a major or medium tag, otherwise none
(its own failure is swallowed at line 124-125). -/
def rescueResult (g : GeoEnv) (lat lon : ℚ) (highway : List Char) : Option (List Char) :=
  if highway ∈ non_vehicle then
    match g.driveQuery lat lon with
    | none => none
    | some hd => if hd ∈ major_roads ∨ hd ∈ medium_roads then some hd else none
  else none

/-- Check 2 (app.py lines 94-144): classify the nearest road tag, with the
sidewalk rescue applied first.  The service and non-vehicle branches test
the original tag; a rescued point satisfies the major or medium branch, so
the is_sidewalk_of_major flag of line 138 is modelled by the rescue having
succeeded.  A raised query appends the road-error note (line 144). -/
def roadStep (g : GeoEnv) (lat lon : ℚ) (st : ℚ × List Note) : ℚ × List Note :=
  match g.roadQuery lat lon with
  | none => (st.1, st.2 ++ [Note.roadError])
  | some highway =>
    match rescueResult g lat lon highway with
    | some hd =>
      let st1 : ℚ × List Note := (st.1, st.2 ++ [Note.sidewalkRescued hd])
      if hd ∈ major_roads then (st1.1 + 2, st1.2 ++ [Note.majorRoad hd])
      else (st1.1 + 1, st1.2 ++ [Note.mediumRoad hd])
    | none =>
      if highway ∈ major_roads then (st.1 + 2, st.2 ++ [Note.majorRoad highway])
      else if highway ∈ medium_roads then (st.1 + 1, st.2 ++ [Note.mediumRoad highway])
      else if highway ∈ living_roads then (st.1 + 1/2, st.2 ++ [Note.livingRoad highway])
      else if highway ∈ [hwService] then (st.1, st.2 ++ [Note.serviceRoad])
      else if highway ∈ non_vehicle then (st.1, st.2 ++ [Note.nonVehicle highway])
      else (st.1, st.2 ++ [Note.alley])

/-- Check 3 (app.py lines 146-155): nearest-node degree at least 3 adds one
point with a note; a smaller degree appends nothing; a raised query is
swallowed by except: pass, appending nothing. -/
def interStep (g : GeoEnv) (lat lon : ℚ) (st : ℚ × List Note) : ℚ × List Note :=
  match g.nodeDegree lat lon with
  | none => st
  | some d => if 3 ≤ d then (st.1 + 1, st.2 ++ [Note.corner]) else st

/-- assess_visibility_rank_v2 (app.py lines 76-175): run the three checks
in order on the running (score, details) state, then derive rank and
colour from the total.  The " / ".join of line 174 is presentation and the
trace is kept as the list of notes.  @st.cache_data memoises this call; the
embedded function is pure, so the memoised and direct results agree. -/
def assess_visibility_rank_v2 (g : GeoEnv) (lat lon : ℚ) : Rank × ℚ × List Note × Color :=
  let st1 := transitStep g lat lon (0, [])
  let st2 := roadStep g lat lon st1
  let st3 := interStep g lat lon st2
  let rc := rankOf st3.1
  (rc.1, st3.1, st3.2, rc.2)

/-- Contribution of check 1 alone: its score delta and its appended notes. -/
def transitDelta (g : GeoEnv) (lat lon : ℚ) : ℚ × List Note :=
  transitStep g lat lon (0, [])

/-- Contribution of check 2 alone. -/
def roadDelta (g : GeoEnv) (lat lon : ℚ) : ℚ × List Note :=
  roadStep g lat lon (0, [])

/-- Contribution of check 3 alone. -/
def interDelta (g : GeoEnv) (lat lon : ℚ) : ℚ × List Note :=
  interStep g lat lon (0, [])

/-! ## The batch runner (app.py lines 180-209 and 284-305) -/

/-- The AIランク cell of a result row: a computed rank or the error marker
string "エラー" (app.py line 190). -/
inductive RankCell where
  | ranked (r : Rank)
  | errorMark
deriving DecidableEq

/-- The AI判定理由 cell: the resolution-failure marker 座標取得失敗
(app.py line 192) or the detail trace of a scored row. -/
inductive ReasonCell where
  | resolveFailed
  | detail (notes : List Note)
deriving DecidableEq

/-- One output row of the batch runner (the result dict of app.py
lines 188-195). -/
structure RowResult where
  index : ℕ
  rankCell : RankCell
  scoreCell : ℚ
  reasonCell : ReasonCell
  lat : Option ℚ
  lon : Option ℚ
deriving DecidableEq

/-- process_single_row (app.py lines 180-209): resolve the row's value;
an unresolved row keeps the pre-filled error-marker result (rank エラー,
score 0, reason 座標取得失敗); a resolved row is scored and the result
fields overwritten.  The embedded assess function is total, so the
分析エラー branch of line 207 (which only fires when the scoring call
itself raises past its own handlers) is unreachable in the model. -/
def process_single_row (net : NetEnv) (geo : GeoEnv) (idx : ℕ) (raw : List Char) :
    RowResult :=
  match extract_coords_from_input net raw with
  | none =>
    { index := idx, rankCell := RankCell.errorMark, scoreCell := 0,
      reasonCell := ReasonCell.resolveFailed, lat := none, lon := none }
  | some (lat, lon) =>
    let r := assess_visibility_rank_v2 geo lat lon
    { index := idx, rankCell := RankCell.ranked r.1, scoreCell := r.2.1,
      reasonCell := ReasonCell.detail r.2.2.1, lat := some lat, lon := some lon }

/-- Placeholder row used as the (never consulted) default of a list lookup. -/
def defaultRow : RowResult :=
  { index := 0, rankCell := RankCell.errorMark, scoreCell := 0,
    reasonCell := ReasonCell.resolveFailed, lat := none, lon := none }

/-- The submitted tasks (app.py line 286): one per input row, carrying its
original row index. -/
def batchTasks (net : NetEnv) (geo : GeoEnv) (rows : List (List Char)) :
    List RowResult :=
  (List.range rows.length).map (fun i => process_single_row net geo i (rows.getD i []))

/-- results[res.index] = res (app.py line 291), on a dictionary modelled as
a function from index to optional row. -/
def insertResult (m : ℕ → Option RowResult) (r : RowResult) : ℕ → Option RowResult :=
  fun j => if j = r.index then some r else m j

/-- The results dictionary after consuming the completed futures in the
order they finished (app.py lines 289-291). -/
def collectResults (completed : List RowResult) : ℕ → Option RowResult :=
  completed.foldl insertResult (fun _ => none)

/-- The batch loop (app.py lines 284-305): submit one task per row, consume
them in an arbitrary completion order (the list `order` of task indices,
a permutation of the row indices), store each result under its original
index, then reassemble results_list by reading indices 0..n-1 in order
(line 299). -/
def run_batch (net : NetEnv) (geo : GeoEnv) (rows : List (List Char))
    (order : List ℕ) : List (Option RowResult) :=
  let tasks := batchTasks net geo rows
  let completed := order.map (fun i => tasks.getD i defaultRow)
  (List.range rows.length).map (fun i => collectResults completed i)

/-! ## Concrete environments and inputs used by witnesses and
counterexamples -/

def strCoordLit : List Char := "35.611781, 140.113250".toList
def tokLat : List Char := "35.611781".toList
def tokLon : List Char := " 140.113250".toList
def strHttp : List Char := "http://maps.example/x".toList
def strExtraComma : List Char := "35.6,140.1,extra".toList
def tokLat2 : List Char := "35.6".toList
def tokLon2 : List Char := "140.1".toList
def tokExtra : List Char := "extra".toList
def strOutOfRange : List Char := "1000, 2000".toList
def tok1000 : List Char := "1000".toList
def tokSp2000 : List Char := " 2000".toList
def strUnresolvable : List Char := "nowhere".toList

/-- Finite concretisation of Python's float() used by the test
environments: it answers exactly the tokens the test inputs produce,
each value being what Python's float returns on that token, and fails on
every other string.  (The rational values are carried opaquely, which
keeps kernel evaluation of the resolver free of rational normalisation.) -/
def floatTable (l : List Char) : Option ℚ :=
  if l = tokLat then some (35611781/1000000)
  else if l = tokLon then some (560453/4000)
  else if l = tokLat2 then some (178/5)
  else if l = tokLon2 then some (1401/10)
  else if l = tok1000 then some 1000
  else if l = tokSp2000 then some 2000
  else none

/-- Environment in which every network call fails or finds nothing and
float() is the concrete table parser: only the literal strategy can
produce a coordinate. -/
def noNet : NetEnv :=
  { parseFloat := floatTable
    fetchFinalURL := fun _ => none
    reSearchAt := fun _ => none
    qsQ := fun _ => none
    re3d := fun _ => none
    re4d := fun _ => none
    geocode := fun _ => none }

/-- Environment in which the URL fetch succeeds but the final URL matches
none of the three extraction patterns, and geocoding then finds a
location. -/
def fallthroughNet : NetEnv :=
  { noNet with
    fetchFinalURL := fun _ => some httpTok
    geocode := fun _ => some (35, 139) }

/-- Geo environment in which every osmnx query raises. -/
def geoAllFail : GeoEnv :=
  { stationsFound := fun _ _ => none
    roadQuery := fun _ _ => none
    driveQuery := fun _ _ => none
    nodeDegree := fun _ _ => none }

/-- Geo environment: station query raises, the point is on a primary road
at a degree-4 node. -/
def geoTransitRaises : GeoEnv :=
  { stationsFound := fun _ _ => none
    roadQuery := fun _ _ => some hwPrimary
    driveQuery := fun _ _ => none
    nodeDegree := fun _ _ => some 4 }

/-- Geo environment: the nearest road is a footway and the drive-network
rescue query finds a primary road. -/
def geoFootwayPrimary : GeoEnv :=
  { stationsFound := fun _ _ => some false
    roadQuery := fun _ _ => some hwFootway
    driveQuery := fun _ _ => some hwPrimary
    nodeDegree := fun _ _ => none }

/-- Geo environment: the nearest road is a service road while a
rescue-eligible primary road is also nearby. -/
def geoServicePrimary : GeoEnv :=
  { stationsFound := fun _ _ => some false
    roadQuery := fun _ _ => some hwService
    driveQuery := fun _ _ => some hwPrimary
    nodeDegree := fun _ _ => none }

/-- The two-row batch input used by the batch witness. -/
def rowsW : List (List Char) := [strCoordLit, strUnresolvable]

/-! ## Lemmas about the string utilities -/

theorem occursIn_nil_pat (s : List Char) : occursIn [] s = true := by
  cases s <;> simp [occursIn, isPrefixList]

theorem occursIn_cons_of (pat : List Char) (c : Char) (rest : List Char)
    (h : occursIn pat rest = true) : occursIn pat (c :: rest) = true := by
  simp [occursIn, h]

theorem occursIn_append_right (pat l t : List Char) (h : occursIn pat t = true) :
    occursIn pat (l ++ t) = true := by
  induction l with
  | nil => simpa using h
  | cons c l ih => simpa using occursIn_cons_of pat c (l ++ t) ih

theorem isPrefixList_append (pat l r : List Char) (h : isPrefixList pat l = true) :
    isPrefixList pat (l ++ r) = true := by
  induction pat generalizing l with
  | nil => simp [isPrefixList]
  | cons x xs ih =>
    cases l with
    | nil => simp [isPrefixList] at h
    | cons y ys =>
      simp only [isPrefixList, Bool.and_eq_true, beq_iff_eq] at h
      simp only [List.cons_append, isPrefixList, Bool.and_eq_true, beq_iff_eq]
      exact ⟨h.1, ih ys h.2⟩

theorem occursIn_append_left (pat l r : List Char) (h : occursIn pat l = true) :
    occursIn pat (l ++ r) = true := by
  induction l with
  | nil =>
    cases pat with
    | nil => simpa using occursIn_nil_pat r
    | cons x xs => simp [occursIn, isPrefixList] at h
  | cons c l ih =>
    simp only [occursIn, Bool.or_eq_true] at h
    rcases h with h | h
    · have := isPrefixList_append pat (c :: l) r h
      simp only [List.cons_append] at this ⊢
      simp [occursIn, this]
    · simpa using occursIn_cons_of pat c (l ++ r) (ih h)

theorem occursIn_pyStrip (pat s : List Char) (h : occursIn pat (pyStrip s) = true) :
    occursIn pat s = true := by
  have h1 : List.takeWhile isPySpace s ++ List.dropWhile isPySpace s = s :=
    List.takeWhile_append_dropWhile _ _
  unfold pyStrip at h
  set u := List.dropWhile isPySpace s with hu
  have h2 : List.takeWhile isPySpace u.reverse ++ List.dropWhile isPySpace u.reverse
      = u.reverse := List.takeWhile_append_dropWhile _ _
  have h3 : (List.dropWhile isPySpace u.reverse).reverse
      ++ (List.takeWhile isPySpace u.reverse).reverse = u := by
    have h2x := congrArg List.reverse h2
    rw [List.reverse_append, List.reverse_reverse] at h2x
    exact h2x
  have h4 : occursIn pat u = true := by
    rw [← h3]
    exact occursIn_append_left _ _ _ h
  rw [← h1]
  exact occursIn_append_right _ _ _ h4

theorem occursIn_pyStrip_false (pat s : List Char) (h : occursIn pat s = false) :
    occursIn pat (pyStrip s) = false := by
  cases hx : occursIn pat (pyStrip s) with
  | false => rfl
  | true => exact absurd (occursIn_pyStrip pat s hx) (by simp [h])

theorem hasAddressMarker_pyStrip_false (s : List Char) (h : hasAddressMarker s = false) :
    hasAddressMarker (pyStrip s) = false := by
  unfold hasAddressMarker at h ⊢
  rw [Bool.eq_false_iff] at h ⊢
  intro hx
  apply h
  rw [List.any_eq_true] at hx ⊢
  obtain ⟨c, hc, hcs⟩ := hx
  exact ⟨c, hc, occursIn_pyStrip [c] s hcs⟩

theorem splitOn_two_charIn (sep : Char) (s : List Char) (t0 t1 : List Char)
    (ts : List (List Char)) (h : splitOn sep s = t0 :: t1 :: ts) : charIn sep s = true := by
  induction s generalizing t0 t1 ts with
  | nil => simp [splitOn] at h
  | cons c rest ih =>
    by_cases hc : (c == sep) = true
    · have hcs : sep = c := (eq_of_beq hc).symm
      subst hcs
      simp [charIn, occursIn, isPrefixList]
    · rw [Bool.not_eq_true] at hc
      simp only [splitOn, hc, Bool.false_eq_true, if_false] at h
      cases hsp : splitOn sep rest with
      | nil => simp [hsp] at h
      | cons t ts2 =>
        rw [hsp] at h
        have h2 : ts2 = t1 :: ts := (List.cons.injEq _ _ _ _ ▸ h).2
        have := ih t t1 ts (by rw [hsp, h2])
        simpa [charIn, occursIn] using Or.inr (by simpa [charIn] using this)

/-! ## Lemmas about the resolver -/

/-- When the literal strategy's guard passes and the stripped input splits
into at least two comma fields, the resolver returns the parse of the
first two fields, or falls through to geocoding on a parse failure
(there being no "http" in the input, the URL branch is skipped). -/
theorem extract_literal_eval (env : NetEnv) (raw t0 t1 : List Char)
    (rest : List (List Char))
    (hh : occursIn httpTok raw = false) (hm : hasAddressMarker raw = false)
    (hsp : splitOn ',' (pyStrip raw) = t0 :: t1 :: rest) :
    extract_coords_from_input env raw =
      match env.parseFloat t0, env.parseFloat t1 with
      | some x, some y => some (x, y)
      | _, _ => env.geocode (pyStrip raw) := by
  have hcomma : charIn ',' (pyStrip raw) = true := splitOn_two_charIn ',' _ t0 t1 rest hsp
  have hh2 : occursIn httpTok (pyStrip raw) = false := occursIn_pyStrip_false _ _ hh
  have hm2 : hasAddressMarker (pyStrip raw) = false := hasAddressMarker_pyStrip_false _ hm
  unfold extract_coords_from_input
  simp only [hcomma, hh2, hm2, Bool.not_false, Bool.and_self, Bool.and_true, if_true, hsp]
  cases hp0 : env.parseFloat t0 with
  | none => simp [hp0, hh2]
  | some x =>
    cases hp1 : env.parseFloat t1 with
    | none => simp [hp0, hp1, hh2]
    | some y => simp [hp0, hp1]

/-- Claim C3: for every string with exactly one comma (so the stripped
input splits into exactly two comma fields), no "http" substring and no
address marker, whose two fields both parse as floats, the resolver
returns exactly that pair of parsed values. -/
theorem literal_coordinate_exact (env : NetEnv) (raw t0 t1 : List Char) (a b : ℚ)
    (hh : occursIn httpTok raw = false) (hm : hasAddressMarker raw = false)
    (hsp : splitOn ',' (pyStrip raw) = [t0, t1])
    (hp0 : env.parseFloat t0 = some a) (hp1 : env.parseFloat t1 = some b) :
    extract_coords_from_input env raw = some (a, b) := by
  rw [extract_literal_eval env raw t0 t1 [] hh hm hsp, hp0, hp1]

/-- Witness for C3 at the spec's own example input. -/
theorem literal_coordinate_exact_witness :
    extract_coords_from_input noNet strCoordLit = some (35611781/1000000, 560453/4000) :=
  literal_coordinate_exact noNet strCoordLit tokLat tokLon (35611781/1000000) (560453/4000)
    (by decide) (by decide) (by decide) rfl rfl

/-- Claim C9 (amended): the literal strategy splits on every comma and
takes the first two fields, ignoring any further comma fields, succeeding
exactly when both parse as floats; any parse failure falls through to the
next strategy (geocoding, the input containing no "http"). -/
theorem split_first_two_tokens (env : NetEnv) (raw t0 t1 : List Char)
    (rest : List (List Char))
    (hh : occursIn httpTok raw = false) (hm : hasAddressMarker raw = false)
    (hsp : splitOn ',' (pyStrip raw) = t0 :: t1 :: rest) :
    (∀ a b : ℚ, env.parseFloat t0 = some a → env.parseFloat t1 = some b →
      extract_coords_from_input env raw = some (a, b)) ∧
    (env.parseFloat t0 = none →
      extract_coords_from_input env raw = env.geocode (pyStrip raw)) ∧
    (∀ a : ℚ, env.parseFloat t0 = some a → env.parseFloat t1 = none →
      extract_coords_from_input env raw = env.geocode (pyStrip raw)) := by
  refine ⟨fun a b hp0 hp1 => ?_, fun hp0 => ?_, fun a hp0 hp1 => ?_⟩ <;>
    rw [extract_literal_eval env raw t0 t1 rest hh hm hsp, hp0] <;> try rw [hp1]

/-- Counterexample for C9 as stated: the input "35.6,140.1,extra" has more
than one comma, yet the literal strategy produces (35.6, 140.1) instead of
falling through (geocoding returns nothing in this environment, so the
produced pair can only come from the literal strategy). -/
theorem split_extra_comma_counterexample :
    occursIn httpTok strExtraComma = false ∧
    (splitOn ',' (pyStrip strExtraComma)).length = 3 ∧
    noNet.geocode (pyStrip strExtraComma) = none ∧
    extract_coords_from_input noNet strExtraComma = some (178/5, 1401/10) :=
  ⟨by decide, by decide, rfl, rfl⟩

/-- Witness for C9 (amended) at the counterexample input. -/
theorem split_first_two_tokens_witness :
    extract_coords_from_input noNet strExtraComma = some (178/5, 1401/10) :=
  (split_first_two_tokens noNet strExtraComma tokLat2 tokLon2 [tokExtra]
    (by decide) (by decide) (by decide)).1 (178/5) (1401/10) rfl rfl

/-- Claim C1 (amended): once "http" occurs in the (stripped) input the
literal strategy is skipped and the URL branch decides as follows: a
raised fetch or conversion makes the resolver return none; a matched
pattern returns its pair; but when the fetch succeeds and no pattern
matches, the resolver falls through to address geocoding (the claim's
"never falls back to geocoding" fails in exactly this case). -/
theorem url_branch_decides (env : NetEnv) (raw : List Char)
    (hh : occursIn httpTok (pyStrip raw) = true) :
    (urlPattern env (pyStrip raw) = UrlOutcome.raised →
      extract_coords_from_input env raw = none) ∧
    (∀ p, urlPattern env (pyStrip raw) = UrlOutcome.coords p →
      extract_coords_from_input env raw = some p) ∧
    (urlPattern env (pyStrip raw) = UrlOutcome.fellThrough →
      extract_coords_from_input env raw = env.geocode (pyStrip raw)) := by
  refine ⟨fun hu => ?_, fun p hu => ?_, fun hu => ?_⟩ <;>
    · unfold extract_coords_from_input
      simp [hh, hu]

/-- Witness for C1 (amended): a raised fetch yields none. -/
theorem url_branch_decides_witness : extract_coords_from_input noNet strHttp = none :=
  (url_branch_decides noNet strHttp (by decide)).1 rfl

/-- Counterexample for C1 as stated: with a successful redirect resolution
matching none of the three patterns, the resolver does not return none but
falls back to geocoding and returns its answer. -/
theorem url_fallthrough_counterexample :
    occursIn httpTok (pyStrip strHttp) = true ∧
    urlPattern fallthroughNet (pyStrip strHttp) = UrlOutcome.fellThrough ∧
    extract_coords_from_input fallthroughNet strHttp = some (35, 139) :=
  ⟨by decide, rfl, rfl⟩

/-- Claim C10 (amended): the resolver applies no range validation; the
literal strategy returns whatever pair of floats parses, including values
far outside latitude [-90, 90] and longitude [-180, 180]. -/
theorem resolver_no_range_check :
    ∃ (raw : List Char) (p : ℚ × ℚ), extract_coords_from_input noNet raw = some p ∧
      (90 < p.1 ∨ p.1 < -90 ∨ 180 < p.2 ∨ p.2 < -180) :=
  ⟨strOutOfRange, (1000, 2000), rfl, by norm_num⟩

/-- Counterexample for C10 as stated: the input "1000, 2000" resolves to
the pair (1000, 2000), whose latitude exceeds 90. -/
theorem resolver_range_counterexample :
    extract_coords_from_input noNet strOutOfRange = some (1000, 2000) ∧
    ¬ ((1000 : ℚ) ≤ 90) :=
  ⟨rfl, by norm_num⟩

/-! ## Lemmas about the rank table -/

theorem rankOf_eq_S (t : ℚ) : rankOf t = (Rank.S, Color.green) ↔ 4 ≤ t := by
  unfold rankOf
  split_ifs with h1 h2 h3 h4 <;> simp <;> first | exact h1 | linarith

theorem rankOf_eq_A (t : ℚ) : rankOf t = (Rank.A, Color.blue) ↔ 3 ≤ t ∧ t < 4 := by
  unfold rankOf
  split_ifs with h1 h2 h3 h4 <;> simp <;>
    first | (constructor <;> linarith) | (intros; linarith)

theorem rankOf_eq_B (t : ℚ) : rankOf t = (Rank.B, Color.orange) ↔ 3/2 ≤ t ∧ t < 3 := by
  unfold rankOf
  split_ifs with h1 h2 h3 h4 <;> simp <;>
    first | (constructor <;> linarith) | (intros; linarith)

theorem rankOf_eq_C (t : ℚ) : rankOf t = (Rank.C, Color.orange) ↔ 0 < t ∧ t < 3/2 := by
  unfold rankOf
  split_ifs with h1 h2 h3 h4 <;> simp <;>
    first | (constructor <;> linarith) | (intros; linarith)

theorem rankOf_eq_D (t : ℚ) : rankOf t = (Rank.D, Color.red) ↔ t ≤ 0 := by
  unfold rankOf
  split_ifs with h1 h2 h3 h4 <;> simp <;> linarith

theorem rankOf_monotone (a b : ℚ) (hab : a ≤ b) :
    rankVal (rankOf a).1 ≤ rankVal (rankOf b).1 := by
  unfold rankOf
  split_ifs <;> simp [rankVal] <;> first | omega | (exfalso; linarith)

/-- Claim C2: the rank is derived from the total by the top-down,
first-match-wins threshold table (total at least 4 gives S and green, else
at least 3 gives A and blue, else at least 1.5 gives B and orange, else
strictly positive gives C and orange, else D and red), and consequently
rank is a monotonically non-decreasing step function of the total. -/
theorem rank_table_and_monotone :
    (∀ t : ℚ,
      (rankOf t = (Rank.S, Color.green) ↔ 4 ≤ t) ∧
      (rankOf t = (Rank.A, Color.blue) ↔ 3 ≤ t ∧ t < 4) ∧
      (rankOf t = (Rank.B, Color.orange) ↔ 3/2 ≤ t ∧ t < 3) ∧
      (rankOf t = (Rank.C, Color.orange) ↔ 0 < t ∧ t < 3/2) ∧
      (rankOf t = (Rank.D, Color.red) ↔ t ≤ 0)) ∧
    (∀ a b : ℚ, a ≤ b → rankVal (rankOf a).1 ≤ rankVal (rankOf b).1) :=
  ⟨fun t => ⟨rankOf_eq_S t, rankOf_eq_A t, rankOf_eq_B t, rankOf_eq_C t, rankOf_eq_D t⟩,
   rankOf_monotone⟩

/-- Witness for C2 on a concrete pair of totals. -/
theorem rank_table_and_monotone_witness :
    rankVal (rankOf 1).1 ≤ rankVal (rankOf 2).1 :=
  rank_table_and_monotone.2 1 2 (by norm_num)

/-! ## Lemmas about the scoring engine -/

theorem transitStep_shift (g : GeoEnv) (lat lon : ℚ) (st : ℚ × List Note) :
    transitStep g lat lon st
      = (st.1 + (transitDelta g lat lon).1, st.2 ++ (transitDelta g lat lon).2) := by
  unfold transitDelta transitStep
  cases h : g.stationsFound lat lon with
  | none => simp
  | some b => cases b <;> simp

theorem roadStep_shift (g : GeoEnv) (lat lon : ℚ) (st : ℚ × List Note) :
    roadStep g lat lon st
      = (st.1 + (roadDelta g lat lon).1, st.2 ++ (roadDelta g lat lon).2) := by
  unfold roadDelta roadStep
  cases h : g.roadQuery lat lon with
  | none => simp
  | some hw =>
    dsimp only
    cases hr : rescueResult g lat lon hw with
    | some hd => dsimp only; split_ifs <;> simp
    | none => dsimp only; split_ifs <;> simp

theorem interStep_shift (g : GeoEnv) (lat lon : ℚ) (st : ℚ × List Note) :
    interStep g lat lon st
      = (st.1 + (interDelta g lat lon).1, st.2 ++ (interDelta g lat lon).2) := by
  unfold interDelta interStep
  cases h : g.nodeDegree lat lon with
  | none => simp
  | some d => dsimp only; split_ifs <;> simp

/-- The sequential state-threading of the three checks decomposes into the
sum of the three deltas and the concatenation of their notes, with the
rank derived from that sum. -/
theorem assess_decomp (g : GeoEnv) (lat lon : ℚ) :
    assess_visibility_rank_v2 g lat lon =
      ((rankOf ((transitDelta g lat lon).1 + (roadDelta g lat lon).1
          + (interDelta g lat lon).1)).1,
       (transitDelta g lat lon).1 + (roadDelta g lat lon).1 + (interDelta g lat lon).1,
       (transitDelta g lat lon).2 ++ (roadDelta g lat lon).2 ++ (interDelta g lat lon).2,
       (rankOf ((transitDelta g lat lon).1 + (roadDelta g lat lon).1
          + (interDelta g lat lon).1)).2) := by
  simp [assess_visibility_rank_v2, interStep_shift, roadStep_shift, transitStep_shift]

theorem transitDelta_cases (g : GeoEnv) (lat lon : ℚ) :
    (transitDelta g lat lon).1 = 0 ∨ (transitDelta g lat lon).1 = 3 := by
  unfold transitDelta transitStep
  cases h : g.stationsFound lat lon with
  | none => simp
  | some b => cases b <;> simp

theorem roadDelta_cases (g : GeoEnv) (lat lon : ℚ) :
    (roadDelta g lat lon).1 = 0 ∨ (roadDelta g lat lon).1 = 1/2 ∨
    (roadDelta g lat lon).1 = 1 ∨ (roadDelta g lat lon).1 = 2 := by
  unfold roadDelta roadStep
  cases h : g.roadQuery lat lon with
  | none => simp
  | some hw =>
    dsimp only
    cases hr : rescueResult g lat lon hw with
    | some hd => dsimp only; split_ifs <;> norm_num
    | none => dsimp only; split_ifs <;> norm_num

theorem interDelta_cases (g : GeoEnv) (lat lon : ℚ) :
    (interDelta g lat lon).1 = 0 ∨ (interDelta g lat lon).1 = 1 := by
  unfold interDelta interStep
  cases h : g.nodeDegree lat lon with
  | none => simp
  | some d => dsimp only; split_ifs <;> norm_num

/-- Claim C4: the total is the sum of at most one contribution from each
check (transit in {0, 3}, road in {0, 0.5, 1, 2}, intersection in
{0, 1}), hence always within [0, 6], and the trace is the transit notes
followed by the road notes followed by the intersection notes, never
reordered. -/
theorem score_sum_bounds_order (g : GeoEnv) (lat lon : ℚ) :
    ((transitDelta g lat lon).1 = 0 ∨ (transitDelta g lat lon).1 = 3) ∧
    ((roadDelta g lat lon).1 = 0 ∨ (roadDelta g lat lon).1 = 1/2 ∨
      (roadDelta g lat lon).1 = 1 ∨ (roadDelta g lat lon).1 = 2) ∧
    ((interDelta g lat lon).1 = 0 ∨ (interDelta g lat lon).1 = 1) ∧
    (assess_visibility_rank_v2 g lat lon).2.1
      = (transitDelta g lat lon).1 + (roadDelta g lat lon).1 + (interDelta g lat lon).1 ∧
    0 ≤ (assess_visibility_rank_v2 g lat lon).2.1 ∧
    (assess_visibility_rank_v2 g lat lon).2.1 ≤ 6 ∧
    (assess_visibility_rank_v2 g lat lon).2.2.1
      = (transitDelta g lat lon).2 ++ (roadDelta g lat lon).2 ++ (interDelta g lat lon).2 := by
  have ht := transitDelta_cases g lat lon
  have hr := roadDelta_cases g lat lon
  have hi := interDelta_cases g lat lon
  have hscore : (assess_visibility_rank_v2 g lat lon).2.1
      = (transitDelta g lat lon).1 + (roadDelta g lat lon).1 + (interDelta g lat lon).1 := by
    rw [assess_decomp]
  have hnotes : (assess_visibility_rank_v2 g lat lon).2.2.1
      = (transitDelta g lat lon).2 ++ (roadDelta g lat lon).2 ++ (interDelta g lat lon).2 := by
    rw [assess_decomp]
  refine ⟨ht, hr, hi, hscore, ?_, ?_, hnotes⟩
  · rw [hscore]
    rcases ht with h1 | h1 <;> rcases hr with h2 | h2 | h2 | h2 <;> rcases hi with h3 | h3 <;>
      rw [h1, h2, h3] <;> norm_num
  · rw [hscore]
    rcases ht with h1 | h1 <;> rcases hr with h2 | h2 | h2 | h2 <;> rcases hi with h3 | h3 <;>
      rw [h1, h2, h3] <;> norm_num

/-- Claim C8 (amended): a failed check contributes 0 points and never
aborts the other checks, which still run and produce a complete result;
however only the road check appends a distinct explanatory note on
failure, while failed transit and intersection checks append nothing to
the trace. -/
theorem check_failure_degrades (g : GeoEnv) (lat lon : ℚ) :
    (g.stationsFound lat lon = none → transitDelta g lat lon = (0, [])) ∧
    (g.roadQuery lat lon = none → roadDelta g lat lon = (0, [Note.roadError])) ∧
    (g.nodeDegree lat lon = none → interDelta g lat lon = (0, [])) ∧
    (assess_visibility_rank_v2 g lat lon).2.1
      = (transitDelta g lat lon).1 + (roadDelta g lat lon).1 + (interDelta g lat lon).1 ∧
    (assess_visibility_rank_v2 g lat lon).2.2.1
      = (transitDelta g lat lon).2 ++ (roadDelta g lat lon).2 ++ (interDelta g lat lon).2 := by
  refine ⟨?_, ?_, ?_, ?_, ?_⟩
  · intro h; simp [transitDelta, transitStep, h]
  · intro h; simp [roadDelta, roadStep, h]
  · intro h; simp [interDelta, interStep, h]
  · rw [assess_decomp]
  · rw [assess_decomp]

/-- Witness for C8 (amended): a raised station query contributes zero. -/
theorem check_failure_degrades_witness :
    transitDelta geoAllFail 35 139 = (0, []) :=
  (check_failure_degrades geoAllFail 35 139).1 rfl

/-- Counterexample for C8 as stated: the transit check fails (its query
raises), yet no note at all is appended for it; the complete result of
the other two checks carries only their two notes. -/
theorem check_failure_note_counterexample :
    geoTransitRaises.stationsFound 35 139 = none ∧
    transitDelta geoTransitRaises 35 139 = (0, []) ∧
    assess_visibility_rank_v2 geoTransitRaises 35 139
      = (Rank.A, 3, [Note.majorRoad hwPrimary, Note.corner], Color.blue) := by
  refine ⟨rfl, rfl, ?_⟩
  have h1 : hwPrimary ∈ major_roads := by decide
  have h2 : hwPrimary ∉ non_vehicle := by decide
  norm_num [assess_visibility_rank_v2, transitStep, roadStep, interStep, rescueResult,
    rankOf, geoTransitRaises, h1, h2]

/-- A non-vehicle tag lies in none of the other road categories. -/
theorem nonvehicle_not_other (hw : List Char) (h : hw ∈ non_vehicle) :
    hw ∉ major_roads ∧ hw ∉ medium_roads ∧ hw ∉ living_roads ∧ hw ≠ hwService := by
  simp only [non_vehicle, List.mem_cons, List.not_mem_nil, or_false] at h
  rcases h with rfl | rfl | rfl | rfl | rfl <;>
    exact ⟨by decide, by decide, by decide, by decide⟩

/-- Claim C6: a point whose nearest road tag is non-vehicle and whose
rescue query finds a major-tier road scores 2.0 at that road's tier
(1.0 for medium tier), with the rescue note recorded before the
classification note; a failed rescue query leaves the original
non-vehicle classification with zero points. -/
theorem sidewalk_rescue_upgrades (g : GeoEnv) (lat lon : ℚ) (hw : List Char)
    (hq : g.roadQuery lat lon = some hw) (hnv : hw ∈ non_vehicle) :
    (∀ d, g.driveQuery lat lon = some d → d ∈ major_roads →
      roadDelta g lat lon = (2, [Note.sidewalkRescued d, Note.majorRoad d])) ∧
    (∀ d, g.driveQuery lat lon = some d → d ∈ medium_roads →
      roadDelta g lat lon = (1, [Note.sidewalkRescued d, Note.mediumRoad d])) ∧
    (g.driveQuery lat lon = none → roadDelta g lat lon = (0, [Note.nonVehicle hw])) := by
  refine ⟨?_, ?_, ?_⟩
  · intro d hd hdm
    simp [roadDelta, roadStep, rescueResult, hq, hd, hnv, hdm]
  · intro d hd hdm
    have hde : d = hwTertiary := by simpa [medium_roads] using hdm
    subst hde
    have hnmaj : hwTertiary ∉ major_roads := by decide
    have hmed : hwTertiary ∈ medium_roads := by decide
    simp [roadDelta, roadStep, rescueResult, hq, hd, hnv, hnmaj, hmed]
  · intro hd
    obtain ⟨n1, n2, n3, n4⟩ := nonvehicle_not_other hw hnv
    simp [roadDelta, roadStep, rescueResult, hq, hd, hnv, n1, n2, n3, n4]

/-- Witness for C6: a footway next to a primary road is upgraded. -/
theorem sidewalk_rescue_upgrades_witness :
    roadDelta geoFootwayPrimary 35 139
      = (2, [Note.sidewalkRescued hwPrimary, Note.majorRoad hwPrimary]) :=
  (sidewalk_rescue_upgrades geoFootwayPrimary 35 139 hwFootway rfl (by decide)).1
    hwPrimary rfl (by decide)

/-- Claim C7: a service-tagged nearest road always contributes 0 points
with the distinct private/service note, decided against the original tag;
the rescue is never applied to it (the drive-network query result is
irrelevant, the environment being arbitrary in it). -/
theorem service_never_rescued (g : GeoEnv) (lat lon : ℚ)
    (hq : g.roadQuery lat lon = some hwService) :
    roadDelta g lat lon = (0, [Note.serviceRoad]) := by
  have h1 : hwService ∉ non_vehicle := by decide
  have h2 : hwService ∉ major_roads := by decide
  have h3 : hwService ∉ medium_roads := by decide
  have h4 : hwService ∉ living_roads := by decide
  simp [roadDelta, roadStep, rescueResult, hq, h1, h2, h3, h4]

/-- Witness for C7: a service road next to a rescue-eligible primary road
still classifies as private/service. -/
theorem service_never_rescued_witness :
    roadDelta geoServicePrimary 35 139 = (0, [Note.serviceRoad]) :=
  service_never_rescued geoServicePrimary 35 139 rfl

/-! ## Lemmas about the batch runner -/

theorem foldl_insert_not_mem (L : List RowResult) (m : ℕ → Option RowResult) (j : ℕ)
    (h : ∀ r ∈ L, r.index ≠ j) : L.foldl insertResult m j = m j := by
  induction L generalizing m with
  | nil => rfl
  | cons a t ih =>
    have ha := h a (List.mem_cons_self a t)
    rw [List.foldl_cons, ih _ (fun r hr => h r (List.mem_cons_of_mem a hr))]
    simp [insertResult, Ne.symm ha]

theorem foldl_insert_mem (L : List RowResult) (m : ℕ → Option RowResult) (j : ℕ)
    (r : RowResult) (hr : r ∈ L) (hidx : r.index = j)
    (huniq : ∀ q ∈ L, q.index = j → q = r) :
    L.foldl insertResult m j = some r := by
  induction L generalizing m with
  | nil => cases hr
  | cons a t ih =>
    rw [List.foldl_cons]
    by_cases hex : ∃ q ∈ t, q.index = j
    · obtain ⟨q, hq, hqi⟩ := hex
      have hqr : q = r := huniq q (List.mem_cons_of_mem a hq) hqi
      subst hqr
      exact ih _ hq (fun p hp hpi => huniq p (List.mem_cons_of_mem a hp) hpi)
    · have hnone : ∀ q ∈ t, q.index ≠ j := fun q hq hqi => hex ⟨q, hq, hqi⟩
      rw [foldl_insert_not_mem t _ j hnone]
      have har : r = a := by
        rcases List.mem_cons.mp hr with hcase | hcase
        · exact hcase
        · exact absurd ⟨r, hcase, hidx⟩ hex
      subst har
      simp [insertResult, hidx]

theorem batchTasks_getD (net : NetEnv) (geo : GeoEnv) (rows : List (List Char))
    (i : ℕ) (h : i < rows.length) :
    (batchTasks net geo rows).getD i defaultRow
      = process_single_row net geo i (rows.getD i []) := by
  unfold batchTasks
  rw [List.getD_eq_getElem?_getD, List.getElem?_map, List.getElem?_range h]
  rfl

theorem process_single_row_index (net : NetEnv) (geo : GeoEnv) (idx : ℕ)
    (raw : List Char) : (process_single_row net geo idx raw).index = idx := by
  unfold process_single_row
  cases h : extract_coords_from_input net raw with
  | none => rfl
  | some p => cases p; rfl

/-- Claim C5: the batch runner, consuming the completed tasks in an
arbitrary completion order (any permutation of the row indices), yields
exactly one result per input row, reassembled strictly in original
row-index order, and every unresolved row carries the explicit error
marker (error rank, score 0, resolution-failure reason) instead of being
dropped or raising. -/
theorem batch_order_count_and_failure (net : NetEnv) (geo : GeoEnv)
    (rows : List (List Char)) (order : List ℕ)
    (hperm : order.Perm (List.range rows.length)) :
    run_batch net geo rows order
      = (List.range rows.length).map
          (fun i => some (process_single_row net geo i (rows.getD i []))) ∧
    (run_batch net geo rows order).length = rows.length ∧
    ∀ (idx : ℕ) (raw : List Char), extract_coords_from_input net raw = none →
      process_single_row net geo idx raw =
        { index := idx, rankCell := RankCell.errorMark, scoreCell := 0,
          reasonCell := ReasonCell.resolveFailed, lat := none, lon := none } := by
  have hmain : run_batch net geo rows order
      = (List.range rows.length).map
          (fun i => some (process_single_row net geo i (rows.getD i []))) := by
    unfold run_batch
    apply List.map_congr_left
    intro i hi
    have hin : i < rows.length := List.mem_range.mp hi
    have hio : i ∈ order := hperm.mem_iff.mpr hi
    have hr_mem : (batchTasks net geo rows).getD i defaultRow
        ∈ order.map (fun j => (batchTasks net geo rows).getD j defaultRow) :=
      List.mem_map.mpr ⟨i, hio, rfl⟩
    have hr_idx : ((batchTasks net geo rows).getD i defaultRow).index = i := by
      rw [batchTasks_getD net geo rows i hin, process_single_row_index]
    have huniq : ∀ q ∈ order.map (fun j => (batchTasks net geo rows).getD j defaultRow),
        q.index = i → q = (batchTasks net geo rows).getD i defaultRow := by
      intro q hq hqi
      obtain ⟨j, hjo, hjq⟩ := List.mem_map.mp hq
      have hjn : j < rows.length := List.mem_range.mp (hperm.mem_iff.mp hjo)
      have hji : ((batchTasks net geo rows).getD j defaultRow).index = j := by
        rw [batchTasks_getD net geo rows j hjn, process_single_row_index]
      rw [← hjq] at hqi ⊢
      rw [hji] at hqi
      rw [hqi]
    have hcol := foldl_insert_mem
      (order.map (fun j => (batchTasks net geo rows).getD j defaultRow))
      (fun _ => none) i ((batchTasks net geo rows).getD i defaultRow)
      hr_mem hr_idx huniq
    show collectResults
        (order.map (fun j => (batchTasks net geo rows).getD j defaultRow)) i
      = some (process_single_row net geo i (rows.getD i []))
    unfold collectResults
    rw [hcol, batchTasks_getD net geo rows i hin]
  refine ⟨hmain, ?_, ?_⟩
  · rw [hmain]
    simp
  · intro idx raw hre
    unfold process_single_row
    rw [hre]

/-- Witness for C5: in a two-row batch completed out of order, the
unresolvable second row yields the explicit error-marker result. -/
theorem batch_order_count_and_failure_witness :
    process_single_row noNet geoAllFail 1 strUnresolvable =
      { index := 1, rankCell := RankCell.errorMark, scoreCell := 0,
        reasonCell := ReasonCell.resolveFailed, lat := none, lon := none } :=
  (batch_order_count_and_failure noNet geoAllFail rowsW [1, 0] (by decide)).2.2
    1 strUnresolvable rfl

end PortVisibility
